import Mathlib

/-!
Verification of `substrate/client/rpc-spec-v2/src/transaction/transaction.rs`:
the `transaction` RPC API that submits a transaction to the pool and watches
its lifecycle, translating pool statuses (`TransactionStatus`) into the
client-facing event vocabulary (`TransactionEvent`).

The pool, the codec and the RPC transport are external collaborators; they are
embedded through their observable results (a decode result, a submission
result, the sequence of statuses the pool's watcher stream yields, and the
items handed to the subscription sink).
-/

/-- Raw status notifications produced by the transaction pool
(`sc_transaction_pool_api::TransactionStatus<Hash, BlockHash>`), exactly the
variants matched by `TransactionState::handle_event`.  `Broadcast` carries the
list of peers (`Vec<String>`), `InBlock`/`Finalized` carry a
`(BlockHash, TxIndex)` pair, `Usurped` carries the replacing transaction's
hash. -/
inductive TransactionStatus (Hash BlockHash : Type) where
  | ready
  | future
  | broadcast (peers : List String)
  | inBlock (p : BlockHash × Nat)
  | retracted (blockHash : BlockHash)
  | finalityTimeout (blockHash : BlockHash)
  | finalized (p : BlockHash × Nat)
  | usurped (hash : Hash)
  | dropped
  | invalid
  deriving DecidableEq, Repr

/-- Payload of `TransactionEvent::BestChainBlockIncluded` / `Finalized`:
a block hash and the transaction's index within that block
(`TransactionBlock { hash, index }` from the event module). -/
structure TransactionBlock (BlockHash : Type) where
  hash : BlockHash
  index : Nat
  deriving DecidableEq, Repr

/-- Payload of `TransactionEvent::Broadcasted`: the number of peers the
transaction was broadcast to (`TransactionBroadcasted { num_peers }`). -/
structure TransactionBroadcasted where
  num_peers : Nat
  deriving DecidableEq, Repr

/-- Payload of `TransactionEvent::Invalid`: a human readable error message
(`TransactionError { error }`). -/
structure TransactionError where
  error : String
  deriving DecidableEq, Repr

/-- Payload of `TransactionEvent::Dropped`: whether the transaction was ever
broadcast, and a human readable error message
(`TransactionDropped { broadcasted, error }`). -/
structure TransactionDropped where
  broadcasted : Bool
  error : String
  deriving DecidableEq, Repr

/-- The client-facing events of the `transaction` RPC API
(`TransactionEvent<BlockHash>`), as constructed by
`TransactionState::handle_event`. -/
inductive TransactionEvent (BlockHash : Type) where
  | validated
  | broadcasted (b : TransactionBroadcasted)
  | bestChainBlockIncluded (b : Option (TransactionBlock BlockHash))
  | finalized (b : TransactionBlock BlockHash)
  | invalid (e : TransactionError)
  | dropped (d : TransactionDropped)
  deriving DecidableEq, Repr

/-- The transaction's per-subscription state
(`struct TransactionState { broadcasted: bool }`).  Its documentation says it
"needs to be preserved between multiple events generated by the
transaction-pool". -/
structure TransactionState where
  broadcasted : Bool
  deriving DecidableEq, Repr

/-- `TransactionState::new()`: the `broadcasted` flag starts out `false`. -/
def TransactionState.new : TransactionState := { broadcasted := false }

/-- `TransactionState::handle_event`: converts one pool status into a client
event, updating the state.  The Rust method takes `&mut self` and returns an
`Option<TransactionEvent>`; it is embedded as explicit state passing, returning
the updated state together with the emitted event. -/
def TransactionState.handle_event {Hash BlockHash : Type}
    (s : TransactionState) (event : TransactionStatus Hash BlockHash) :
    TransactionState × Option (TransactionEvent BlockHash) :=
  match event with
  | .ready =>
      (s, some .validated)
  | .future =>
      (s, some .validated)
  | .broadcast peers =>
      ({ s with broadcasted := s.broadcasted || !(peers.isEmpty) },
       some (.broadcasted { num_peers := peers.length }))
  | .inBlock p =>
      (s, some (.bestChainBlockIncluded (some { hash := p.1, index := p.2 })))
  | .retracted _ =>
      (s, some (.bestChainBlockIncluded none))
  | .finalityTimeout _ =>
      (s, some (.dropped
        { broadcasted := s.broadcasted,
          error := "Maximum number of finality watchers has been reached" }))
  | .finalized p =>
      (s, some (.finalized { hash := p.1, index := p.2 }))
  | .usurped _ =>
      (s, some (.invalid
        { error := "Extrinsic was rendered invalid by another extrinsic" }))
  | .dropped =>
      (s, some (.invalid
        { error := "Extrinsic dropped from the pool due to exceeding limits" }))
  | .invalid =>
      (s, some (.invalid { error := "Extrinsic marked as invalid" }))

/-- The event stream piped to the sink on the successful submission path of
`submit_and_watch`:

```
let mut state = TransactionState::new();
let stream = stream.filter_map(|event| async move { state.handle_event(event) });
```

`TransactionState` derives `Copy`.  The closure captures `state` by value
(the `async move` block inside needs ownership of it), and every invocation of
the closure moves — for a `Copy` type, copies — that captured value into the
freshly created future.  Each future therefore calls `handle_event` on its own
copy of the value captured when the closure was created
(`TransactionState::new()`), and a mutation performed while handling one event
is never observed while handling a later one.  (Without the `Copy` derive this
code would not compile: an `FnMut` closure cannot repeatedly move a captured
value into an `async move` block.)  The faithful embedding thus applies
`handle_event` to every stream item starting from `TransactionState.new`. -/
def watchStream {Hash BlockHash : Type}
    (stream : List (TransactionStatus Hash BlockHash)) :
    List (TransactionEvent BlockHash) :=
  stream.filterMap (fun event => (TransactionState.new.handle_event event).2)

/-- The Status Translator used as a state machine: `handle_event` applied to
each status in arrival order with the state threaded from one call to the
next, which is what the documentation of `TransactionState` ("state that needs
to be preserved between multiple events") describes.  The deployed stream
wiring in `submit_and_watch` does not thread the state (see `watchStream`);
`run` gives the intended semantics and is used to exhibit the divergence. -/
def TransactionState.run {Hash BlockHash : Type} :
    TransactionState → List (TransactionStatus Hash BlockHash) →
    TransactionState × List (TransactionEvent BlockHash)
  | s, [] => (s, [])
  | s, event :: rest =>
      let step := s.handle_event event
      let next := TransactionState.run step.1 rest
      (next.1,
       match step.2 with
       | some ev => ev :: next.2
       | none => next.2)

/-- `const BAD_FORMAT: i32 = 1001;` — the application error code for an
extrinsic with an invalid format. -/
def BAD_FORMAT : Int := 1001

/-- The synchronous return type of `submit_and_watch`
(`jsonrpsee::types::SubscriptionResult`, i.e. `Result<(), SubscriptionError>`);
the error payload is irrelevant here. -/
abbrev SubscriptionResult : Type := Except Unit Unit

/-- Whether a raw status is a `FinalityTimeout` notification — the only arm of
`handle_event` whose output reads the `broadcasted` flag. -/
def TransactionStatus.isFinalityTimeout {Hash BlockHash : Type} :
    TransactionStatus Hash BlockHash → Bool
  | .finalityTimeout _ => true
  | _ => false

/-- What `submit_and_watch` does with the subscription sink: either the sink is
rejected with a coded error (`sink.reject(CallError::Custom(...))`, the decode
failure path — no subscription stream is created and no event is ever
delivered), or a stream of events is piped into it
(`sink.pipe_from_stream(...)`). -/
inductive SinkOutcome (BlockHash : Type) where
  | rejected (code : Int) (message : String)
  | piped (events : List (TransactionEvent BlockHash))
  deriving DecidableEq, Repr

/-- The client events a sink outcome delivers: a rejected sink delivers none. -/
def SinkOutcome.sentEvents {BlockHash : Type} :
    SinkOutcome BlockHash → List (TransactionEvent BlockHash)
  | .rejected _ _ => []
  | .piped events => events

/-- Modelled from the spec: the conversion of a pool submission error into a
client event (`err.into()`, i.e. `From<Error> for TransactionEvent`, defined
in the `transaction::error` module which is not among the sources).  The spec
says the pipeline "synthesizes a single-item terminal event stream carrying
the equivalent Invalid/Dropped-shaped event"; the error is embedded by its
textual rendering and the conversion as an `Invalid` event carrying that
text. -/
def errorIntoEvent (BlockHash : Type) (err : String) : TransactionEvent BlockHash :=
  .invalid { error := err }

/-- Whether a client event has the reason-carrying Invalid/Dropped shape (the
terminal shapes used for failures). -/
def TransactionEvent.isInvalidOrDroppedShaped {BlockHash : Type} :
    TransactionEvent BlockHash → Bool
  | .invalid _ => true
  | .dropped _ => true
  | _ => false

/-- `Transaction::submit_and_watch`.  The codec and the pool are external:
`decoded` is the result of `TransactionFor::<Pool>::decode(&mut &xt[..])` and
`poolSubmit` is the observable behaviour of
`pool.submit_and_watch(best_block_hash, TX_SOURCE, decoded_extrinsic)` —
either the sequence of statuses its watcher stream yields, or a submission
error (rendered as text).  The function returns its synchronous
`SubscriptionResult` together with what the spawned task does with the sink:

* decode failure: the sink is rejected with `BAD_FORMAT` and
  `format!("Extrinsic has invalid format: {}", e)`, and `Ok(())` is returned;
* pool stream: the translated stream is piped into the sink;
* pool error: a single-item stream holding `err.into()` is piped into the
  sink.

In every case the function itself returns `Ok(())`. -/
def submit_and_watch {Tx Hash BlockHash : Type}
    (decoded : Except String Tx)
    (poolSubmit : Tx → Except String (List (TransactionStatus Hash BlockHash))) :
    SubscriptionResult × SinkOutcome BlockHash :=
  match decoded with
  | .error e =>
      (Except.ok (),
       .rejected BAD_FORMAT ("Extrinsic has invalid format: " ++ e))
  | .ok tx =>
      match poolSubmit tx with
      | .ok stream => (Except.ok (), .piped (watchStream stream))
      | .error err => (Except.ok (), .piped [errorIntoEvent BlockHash err])

/-- `handle_event` emits an event on every status variant: it never returns
`none`. -/
theorem handleEvent_isSome {Hash BlockHash : Type}
    (s : TransactionState) (event : TransactionStatus Hash BlockHash) :
    ((s.handle_event event).2).isSome := by
  cases event <;> rfl

example : watchStream ([.ready, .broadcast ["a"], .dropped] :
    List (TransactionStatus Unit Nat)) =
    [.validated, .broadcasted { num_peers := 1 },
     .invalid { error := "Extrinsic dropped from the pool due to exceeding limits" }] := rfl

/-- C1: every raw status fed to the watch stream of a fresh subscription yields
exactly one client event — the emitted event count equals the input count, and
`handle_event` returns `some` (never suppresses a status) on every raw status
variant, from every translator state. -/
theorem translator_total_mapping {Hash BlockHash : Type} :
    (∀ stream : List (TransactionStatus Hash BlockHash),
      (watchStream stream).length = stream.length) ∧
    (∀ (s : TransactionState) (event : TransactionStatus Hash BlockHash),
      ((s.handle_event event).2).isSome) := by
  refine ⟨?_, handleEvent_isSome⟩
  intro stream
  induction stream with
  | nil => rfl
  | cons e rest ih =>
      obtain ⟨ev, hev⟩ :=
        Option.isSome_iff_exists.mp (handleEvent_isSome TransactionState.new e)
      simp only [watchStream, List.filterMap_cons, hev, List.length_cons]
      simp only [watchStream] at ih
      rw [ih]

/-- C2: the claim says the `broadcasted` flag, once set by a Broadcast with at
least one peer, persists and makes a later FinalityTimeout report
`was_broadcasted = true`.  The deployed pipeline loses the flag: because
`TransactionState` is `Copy` and the `filter_map` closure's `async move` block
copies the state into every future, the mutation made while handling
`Broadcast` is never seen while handling `FinalityTimeout`, which therefore
reports `broadcasted := false`.  Threading the state through `handle_event`
(the state machine's own documented contract, `TransactionState.run`) yields
`broadcasted := true` on the same input, exhibiting the divergence. -/
theorem broadcast_flag_lost_by_pipeline :
    watchStream ([.broadcast ["peer1"], .finalityTimeout 0] :
        List (TransactionStatus Unit Nat)) =
      [.broadcasted { num_peers := 1 },
       .dropped
         { broadcasted := false,
           error := "Maximum number of finality watchers has been reached" }] ∧
    (TransactionState.new.run ([.broadcast ["peer1"], .finalityTimeout 0] :
        List (TransactionStatus Unit Nat))).2 =
      [.broadcasted { num_peers := 1 },
       .dropped
         { broadcasted := true,
           error := "Maximum number of finality watchers has been reached" }] :=
  ⟨rfl, rfl⟩

/-- C3: on [Ready, Broadcast(2 peers), FinalityTimeout] the deployed pipeline
emits [Validated, Broadcasted{2}, Dropped{broadcasted := false, ...}] — not
`was_broadcasted = true` as claimed (the Copy'd state is re-copied per event,
see `watchStream`), and the Dropped reason is the code's message
"Maximum number of finality watchers has been reached", not the spec's
paraphrase.  Threading the state (`TransactionState.run`) does give
`broadcasted := true`. -/
theorem ready_broadcast_timeout_eval :
    watchStream ([.ready, .broadcast ["a", "b"], .finalityTimeout 0] :
        List (TransactionStatus Unit Nat)) =
      [.validated, .broadcasted { num_peers := 2 },
       .dropped
         { broadcasted := false,
           error := "Maximum number of finality watchers has been reached" }] ∧
    (TransactionState.new.run ([.ready, .broadcast ["a", "b"], .finalityTimeout 0] :
        List (TransactionStatus Unit Nat))).2 =
      [.validated, .broadcasted { num_peers := 2 },
       .dropped
         { broadcasted := true,
           error := "Maximum number of finality watchers has been reached" }] ∧
    watchStream ([.ready, .broadcast ["a", "b"], .finalityTimeout 0] :
        List (TransactionStatus Unit Nat)) ≠
      [.validated, .broadcasted { num_peers := 2 },
       .dropped
         { broadcasted := true, error := "finality watcher limit reached" }] :=
  ⟨rfl, rfl, by decide⟩

/-- C6: from every translator state, `InBlock(hash, index)` emits
`BestChainBlockIncluded(Some{hash, index})`, `Retracted(_)` emits
`BestChainBlockIncluded(None)`, and neither changes the state. -/
theorem inBlock_retracted_mapping {Hash BlockHash : Type}
    (s : TransactionState) (hash : BlockHash) (index : Nat) (bh : BlockHash) :
    s.handle_event
        ((TransactionStatus.inBlock (hash, index)) : TransactionStatus Hash BlockHash) =
      (s, some (.bestChainBlockIncluded (some { hash := hash, index := index }))) ∧
    s.handle_event
        ((TransactionStatus.retracted bh) : TransactionStatus Hash BlockHash) =
      (s, some (.bestChainBlockIncluded none)) :=
  ⟨rfl, rfl⟩

/-- C7: from every translator state, both `Ready` and `Future` emit the single
event `Validated` and leave the state unchanged. -/
theorem ready_future_validated {Hash BlockHash : Type} (s : TransactionState) :
    s.handle_event (TransactionStatus.ready : TransactionStatus Hash BlockHash) =
      (s, some .validated) ∧
    s.handle_event (TransactionStatus.future : TransactionStatus Hash BlockHash) =
      (s, some .validated) :=
  ⟨rfl, rfl⟩

/-- C8 counterexample: on [Future, Broadcast(0 peers), Dropped] the third
emitted event carries the code's message "Extrinsic dropped from the pool due
to exceeding limits", not the reason text "dropped: exceeded pool limits"
stated by the claim, so the claimed event sequence is not the one produced. -/
theorem dropped_reason_counterexample :
    watchStream ([.future, .broadcast [], .dropped] :
        List (TransactionStatus Unit Nat)) ≠
      [.validated, .broadcasted { num_peers := 0 },
       .invalid { error := "dropped: exceeded pool limits" }] := by
  decide

/-- C8 amended: on [Future, Broadcast(0 peers), Dropped] the pipeline emits
exactly [Validated, Broadcasted{0}, Invalid{"Extrinsic dropped from the pool
due to exceeding limits"}]; the `broadcasted` flag never becomes true (a
Broadcast to zero peers does not set it, also under threaded state), and the
Invalid event structurally carries no broadcast state. -/
theorem future_broadcast0_dropped :
    watchStream ([.future, .broadcast [], .dropped] :
        List (TransactionStatus Unit Nat)) =
      [.validated, .broadcasted { num_peers := 0 },
       .invalid
         { error := "Extrinsic dropped from the pool due to exceeding limits" }] ∧
    (TransactionState.new.run ([.future, .broadcast [], .dropped] :
        List (TransactionStatus Unit Nat))).1.broadcasted = false :=
  ⟨rfl, rfl⟩

/-- C10: for every raw status other than FinalityTimeout, the event emitted by
`handle_event` is independent of the translator state (running it from any two
states yields equal events); and the FinalityTimeout mapping does read the
`broadcasted` flag (two states differing on the flag yield different Dropped
events). -/
theorem nonTimeout_state_independent {Hash BlockHash : Type} :
    (∀ (s1 s2 : TransactionState) (event : TransactionStatus Hash BlockHash),
      event.isFinalityTimeout = false →
      (s1.handle_event event).2 = (s2.handle_event event).2) ∧
    (∀ bh : BlockHash,
      ((TransactionState.mk false).handle_event
          ((TransactionStatus.finalityTimeout bh) : TransactionStatus Hash BlockHash)).2 ≠
      ((TransactionState.mk true).handle_event
          ((TransactionStatus.finalityTimeout bh) : TransactionStatus Hash BlockHash)).2) := by
  constructor
  · intro s1 s2 event h
    cases event with
    | finalityTimeout bh => simp [TransactionStatus.isFinalityTimeout] at h
    | _ => rfl
  · intro bh hcontra
    simp [TransactionState.handle_event] at hcontra

/-- Witness for C10 at a concrete input: `Ready` is not a FinalityTimeout, and
handling it from the two states that differ on the flag emits equal events. -/
theorem nonTimeout_state_independent_witness :
    (TransactionStatus.ready : TransactionStatus Unit Nat).isFinalityTimeout = false ∧
    ((TransactionState.mk false).handle_event
        (TransactionStatus.ready : TransactionStatus Unit Nat)).2 =
      ((TransactionState.mk true).handle_event
        (TransactionStatus.ready : TransactionStatus Unit Nat)).2 :=
  ⟨rfl, (@nonTimeout_state_independent Unit Nat).1 (TransactionState.mk false)
    (TransactionState.mk true) TransactionStatus.ready rfl⟩

/-- C4: for every payload whose decode fails, `submit_and_watch` rejects the
sink exactly once with the fixed application error code 1001 (`BAD_FORMAT`)
and the malformed-input message, creates no subscription stream (the outcome
is `rejected`, not `piped`), delivers no client event, and still returns
`Ok(())`. -/
theorem decode_failure_rejected {Tx Hash BlockHash : Type} (e : String)
    (poolSubmit : Tx → Except String (List (TransactionStatus Hash BlockHash))) :
    submit_and_watch (Except.error e) poolSubmit =
      (Except.ok (),
       SinkOutcome.rejected 1001 ("Extrinsic has invalid format: " ++ e)) ∧
    (submit_and_watch (Except.error e) poolSubmit).2.sentEvents = [] :=
  ⟨rfl, rfl⟩

/-- C5: for every well-formed payload whose pool submission errors,
`submit_and_watch` returns plain `Ok(())` (no synchronous error), and the
accepted subscription is piped exactly one event — the conversion of the pool
error — which has the terminal Invalid/Dropped shape; the stream holds nothing
else. -/
theorem pool_error_single_terminal_event {Tx Hash BlockHash : Type}
    (tx : Tx) (msg : String)
    (poolSubmit : Tx → Except String (List (TransactionStatus Hash BlockHash)))
    (hp : poolSubmit tx = Except.error msg) :
    submit_and_watch (Except.ok tx) poolSubmit =
      (Except.ok (), SinkOutcome.piped [errorIntoEvent BlockHash msg]) ∧
    (errorIntoEvent BlockHash msg).isInvalidOrDroppedShaped = true := by
  refine ⟨?_, rfl⟩
  simp only [submit_and_watch, hp]

/-- Witness for C5 at a concrete input: a pool that rejects every submission
with the error text "rejected". -/
theorem pool_error_single_terminal_event_witness :
    (fun _ : Unit =>
      (Except.error "rejected" : Except String (List (TransactionStatus Unit Nat)))) () =
      Except.error "rejected" ∧
    submit_and_watch (Except.ok ())
      (fun _ : Unit =>
        (Except.error "rejected" : Except String (List (TransactionStatus Unit Nat)))) =
      (Except.ok (), SinkOutcome.piped [errorIntoEvent Nat "rejected"]) :=
  ⟨rfl,
   (pool_error_single_terminal_event () "rejected"
     (fun _ : Unit =>
       (Except.error "rejected" : Except String (List (TransactionStatus Unit Nat))))
     rfl).1⟩

/-- C9: for every decode result and every pool behaviour, `submit_and_watch`
returns `Ok(())` at its synchronous call boundary — the error variant of the
returned `SubscriptionResult` is never produced, on the decode-failure path as
well as on both submission paths. -/
theorem submit_and_watch_always_ok {Tx Hash BlockHash : Type}
    (decoded : Except String Tx)
    (poolSubmit : Tx → Except String (List (TransactionStatus Hash BlockHash))) :
    (submit_and_watch decoded poolSubmit).1 = Except.ok () := by
  cases decoded with
  | error e => rfl
  | ok tx =>
      cases hp : poolSubmit tx with
      | ok stream => simp [submit_and_watch, hp]
      | error err => simp [submit_and_watch, hp]
